import Mathlib

/-!
Verification of the `aio_lambda_api` dispatch engine.

The definitions below are a shallow embedding of `src/aio_lambda_api/core.py`
and `src/aio_lambda_api/exceptions.py`.  Modules of the repository that are not
under `src/` (`responses.py`, `requests.py`, `status.py`, `json.py`,
`logging.py`) are modelled from the specification and are marked as such in
their doc comments.
-/

namespace AioLambdaApi

/-- Decoded JSON values: bodies, events and response contents. -/
inductive Json where
  | null : Json
  | str : String → Json
  | num : Int → Json
  | bool : Bool → Json
  | arr : List Json → Json
  | obj : List (String × Json) → Json

/-- Python `dict` read (`d[k]` guarded by `KeyError`): first matching key. -/
def dictGet {α : Type} : List (String × α) → String → Option α
  | [], _ => none
  | (k', v) :: d, k => if k = k' then some v else dictGet d k

/-- Python `dict` write (`d[k] = v`): update in place, append if absent. -/
def dictSet {α : Type} : List (String × α) → String → α → List (String × α)
  | [], k, v => [(k, v)]
  | (k', v') :: d, k, v =>
    if k = k' then (k, v) :: d else (k', v') :: dictSet d k v

/-- Read a key of a JSON object; `none` for a missing key or a non-object. -/
def jsonGet : Json → String → Option Json
  | Json.obj fields, k => dictGet fields k
  | _, _ => none

/-- Escape of one character inside a JSON string literal. -/
def escapeChar (c : Char) : String :=
  if c = '"' then "\\\"" else if c = '\\' then "\\\\" else String.singleton c

/-- Escape of a JSON string literal. -/
def escapeStr (s : String) : String :=
  String.join (s.toList.map escapeChar)

mutual

/-- Modelled from the spec: `aio_lambda_api/json.py` (`dumps`) is not under
src/; per the spec and the expected wire bodies it serializes a value to
compact JSON text (separators `,` and `:`, no added whitespace). -/
def dumps : Json → String
  | Json.null => "null"
  | Json.str s => "\"" ++ escapeStr s ++ "\""
  | Json.num n => toString n
  | Json.bool true => "true"
  | Json.bool false => "false"
  | Json.arr xs => "[" ++ dumpsArr xs ++ "]"
  | Json.obj fs => "\x7b" ++ dumpsObj fs ++ "\x7d"

/-- Serialization of the elements of a JSON array. -/
def dumpsArr : List Json → String
  | [] => ""
  | [x] => dumps x
  | x :: xs => dumps x ++ "," ++ dumpsArr xs

/-- Serialization of the fields of a JSON object. -/
def dumpsObj : List (String × Json) → String
  | [] => ""
  | [(k, v)] => "\"" ++ escapeStr k ++ "\":" ++ dumps v
  | (k, v) :: fs => "\"" ++ escapeStr k ++ "\":" ++ dumps v ++ "," ++ dumpsObj fs

end

/-- Modelled from the spec: `aio_lambda_api/status.py` (`get_status_message`)
is not under src/; per the spec it returns the human-readable HTTP reason
phrase for a status code. -/
def get_status_message (code : Int) : String :=
  if code = 200 then "OK"
  else if code = 201 then "Created"
  else if code = 202 then "Accepted"
  else if code = 204 then "No Content"
  else if code = 400 then "Bad Request"
  else if code = 401 then "Unauthorized"
  else if code = 403 then "Forbidden"
  else if code = 404 then "Not Found"
  else if code = 405 then "Method Not Allowed"
  else if code = 409 then "Conflict"
  else if code = 422 then "Unprocessable Entity"
  else if code = 500 then "Internal Server Error"
  else if code = 503 then "Service Unavailable"
  else "Unknown"

/-- Python truthiness of an optional string (`None` and `""` are falsy). -/
def truthy : Option String → Bool
  | none => false
  | some s => s ≠ ""

/-- `HTTPException` of `src/aio_lambda_api/exceptions.py`: status code, private
`_detail`, keyword-only `_error_detail` and optional extra headers (the extra
headers are never read by the dispatcher). -/
structure HTTPException where
  status_code : Int
  _detail : Option String
  _error_detail : Option String
  headers : Option (List (String × String))

/-- The `detail` property: `self._detail or _get_status_message(self.status_code)`
(Python truthiness, so `None` and `""` both fall back to the reason phrase). -/
def HTTPException.detail (e : HTTPException) : String :=
  match e._detail with
  | some d => if d = "" then get_status_message e.status_code else d
  | none => get_status_message e.status_code

/-- The `error_detail` property: the truthy `_error_detail` if any, else the
truthy `_detail` if any, else `None`. -/
def HTTPException.error_detail (e : HTTPException) : Option String :=
  if truthy e._error_detail then e._error_detail
  else if truthy e._detail then e._detail
  else none

/-- Modelled from the spec: the inbound event of section 6.  `requestContext`
is kept as raw JSON (it may hold the nested `http` object or the legacy
fields); `httpMethod` and `path` are the possible top-level event fields; the
`body` is kept already decoded (the wire-level string/base64 decoding of
`requests.py`, which is not under src/, is elided). -/
structure Event where
  requestContext : Json
  headers : List (String × String)
  body : Option Json
  httpMethod : Option String
  path : Option String

/-- Modelled from the spec: `Request` of `aio_lambda_api/requests.py` (not
under src/), a read-only view over the decoded invocation event. -/
structure Request where
  event : Event

/-- Modelled from the spec: the request body decoded as structured data
(`request.json()`); decoding is elided, see `Event.body`. -/
def Request.json (r : Request) : Option Json :=
  r.event.body

/-- Modelled from the spec: case-insensitive header lookup on the request. -/
def Request.header (r : Request) (k : String) : Option String :=
  dictGet (r.event.headers.map (fun p => (p.1.toLower, p.2))) k.toLower

/-- Modelled from the spec: `Response` of `aio_lambda_api/responses.py` (not
under src/), the mutable envelope under construction: status code, headers,
opaque content and optional media type.  Only the JSON-rendered variant, the
one every claim exercises, is modelled: binary byte payloads of the plain
`Response` class are out of scope here, so rendered payloads are text and the
base64 branch of the dispatcher never fires. -/
structure Response where
  status_code : Int
  headers : List (String × String)
  content : Option Json
  media_type : Option String

/-- Modelled from the spec: `JSONResponse(content=..., status_code=...)`, a
fresh response with empty headers and the JSON media type. -/
def JSONResponse (content : Option Json) (status_code : Int) : Response :=
  ⟨status_code, [], content, some "application/json"⟩

/-- Injection kind of a declared handler parameter: whose declared type is the
`_Request` class or the `_Response` class. -/
inductive ParamKind where
  | request : ParamKind
  | response : ParamKind
deriving DecidableEq

/-- A route handler as seen by the route table.  `base` is a plain Python
callable (identified by a tag, carrying the parameter kinds its signature
declares).  `validated` is modelled from the spec: the optional external
validation library (`pydantic.validate_arguments`) wraps the handler into a
distinct callable with the same calling convention. -/
inductive FuncObj where
  | base : Nat → List (String × ParamKind) → FuncObj
  | validated : FuncObj → FuncObj
deriving DecidableEq

/-- `_APIRoute`: registered handler, default success status code, parameters
to inject. -/
structure APIRoute where
  func : FuncObj
  status_code : Int
  params : List (String × ParamKind)
deriving DecidableEq

/-- The `Handler._routes` two-level table: path, then method. -/
abbrev Routes := List (String × List (String × APIRoute))

/-- `Handler._check_signature`: the parameters of the raw callable whose
declared type marks them for `Request`/`Response` injection (signature
introspection, read off the callable's declaration). -/
def Handler.check_signature : FuncObj → List (String × ParamKind)
  | FuncObj.base _ ps => ps
  | FuncObj.validated f => Handler.check_signature f

/-- `status_code or 200` (Python truthiness: `None` and `0` give `200`). -/
def statusOr200 : Option Int → Int
  | none => 200
  | some c => if c = 0 then 200 else c

/-- The decorator of `Handler._api_route` applied to a callable: inspect the
signature, wrap with the validation library when available, then insert into
the route table unless the (path, method) pair is already taken. -/
def Handler.api_route (routes : Routes) (path method : String)
    (status_code : Option Int) (has_validator : Bool) (func : FuncObj) :
    Except String (Routes × FuncObj) :=
  let params := Handler.check_signature func
  let func2 := if has_validator then FuncObj.validated func else func
  let path_routes := (dictGet routes path).getD []
  match dictGet path_routes method with
  | some _ =>
    Except.error ("Route already registered: " ++ method ++ " \"" ++ path ++ "\".")
  | none =>
    Except.ok
      (dictSet routes path (dictSet path_routes method ⟨func2, statusOr200 status_code, params⟩),
       func2)

/-- `Handler.delete`: register a DELETE route. -/
def Handler.delete (routes : Routes) (path : String) (status_code : Option Int)
    (has_validator : Bool) (func : FuncObj) : Except String (Routes × FuncObj) :=
  Handler.api_route routes path "DELETE" status_code has_validator func

/-- `Handler.get`: register a GET route. -/
def Handler.get (routes : Routes) (path : String) (status_code : Option Int)
    (has_validator : Bool) (func : FuncObj) : Except String (Routes × FuncObj) :=
  Handler.api_route routes path "GET" status_code has_validator func

/-- `Handler.head`: register a HEAD route. -/
def Handler.head (routes : Routes) (path : String) (status_code : Option Int)
    (has_validator : Bool) (func : FuncObj) : Except String (Routes × FuncObj) :=
  Handler.api_route routes path "HEAD" status_code has_validator func

/-- `Handler.options`: register an OPTIONS route. -/
def Handler.options (routes : Routes) (path : String) (status_code : Option Int)
    (has_validator : Bool) (func : FuncObj) : Except String (Routes × FuncObj) :=
  Handler.api_route routes path "OPTIONS" status_code has_validator func

/-- `Handler.patch`: register a PATCH route. -/
def Handler.patch (routes : Routes) (path : String) (status_code : Option Int)
    (has_validator : Bool) (func : FuncObj) : Except String (Routes × FuncObj) :=
  Handler.api_route routes path "PATCH" status_code has_validator func

/-- `Handler.post`: register a POST route. -/
def Handler.post (routes : Routes) (path : String) (status_code : Option Int)
    (has_validator : Bool) (func : FuncObj) : Except String (Routes × FuncObj) :=
  Handler.api_route routes path "POST" status_code has_validator func

/-- `Handler.put`: register a PUT route. -/
def Handler.put (routes : Routes) (path : String) (status_code : Option Int)
    (has_validator : Bool) (func : FuncObj) : Except String (Routes × FuncObj) :=
  Handler.api_route routes path "PUT" status_code has_validator func

/-- A keyword argument passed to the route function: either a value taken from
the decoded request body, or the live `Request` object, or the live (seeded,
mutable) `Response` object. -/
inductive Arg where
  | fromBody : Json → Arg
  | injRequest : Arg
  | injResponse : Arg

/-- The argument a flagged parameter is bound to. -/
def injectArg : ParamKind → Arg
  | ParamKind.request => Arg.injRequest
  | ParamKind.response => Arg.injResponse

/-- The body-merging step of `Handler._prepare_request` (lines 176-184):
`kwargs = body.copy() if isinstance(body, dict) else dict()`, then every
flagged parameter is overwritten with the live `Request`/`Response` object. -/
def prepareKwargs (body : Option Json) (params : List (String × ParamKind)) :
    List (String × Arg) :=
  let init : List (String × Arg) :=
    match body with
    | some (Json.obj fields) => fields.map (fun p => (p.1, Arg.fromBody p.2))
    | _ => []
  params.foldl (fun kw p => dictSet kw p.1 (injectArg p.2)) init

/-- `Handler._prepare_request`: resolve the route (404 if the path is unknown,
405 if the method is not registered for it), build the request and the seeded
response, and merge the decoded body into keyword arguments. -/
def Handler.prepare_request (routes : Routes) (path method : String)
    (event : Event) :
    Except HTTPException (Request × Response × FuncObj × List (String × Arg)) :=
  match dictGet routes path with
  | none => Except.error ⟨404, none, none, none⟩
  | some path_routes =>
    match dictGet path_routes method with
    | none => Except.error ⟨405, none, none, none⟩
    | some route =>
      let request : Request := ⟨event⟩
      let response := JSONResponse none route.status_code
      Except.ok (request, response, route.func, prepareKwargs (Request.json request) route.params)

/-- Modelled from the spec: the per-invocation logging scope of
`aio_lambda_api/logging.py` (not under src/), a mutable mapping with the
recognized fields; an unset `level` flushes as the default "info" level
("no elevated level"). -/
structure LogCtx where
  method : Option String
  path : Option String
  request_id : Option String
  user_agent : Option String
  status_code : Option Int
  level : Option String
  error_detail : Option String
deriving DecidableEq

/-- A fresh logging scope: every field unset. -/
def emptyLog : LogCtx :=
  ⟨none, none, none, none, none, none, none⟩

/-- Modelled from the spec: when a fault propagates out of the logging scope,
the scope records status 500, level "critical" and the full diagnostic trace
in `error_detail` before re-raising. -/
def scope_record_fault (log : LogCtx) (trace : String) : LogCtx :=
  { log with status_code := some 500, level := some "critical",
             error_detail := some trace }

/-- The API-gateway compatible response envelope
`dict(body=..., statusCode=..., headers=..., isBase64Encoded=...)`. -/
structure Envelope where
  body : Option String
  statusCode : String
  headers : List (String × String)
  isBase64Encoded : Bool
deriving DecidableEq

/-- `Handler._prepare_response`: no-content 200 becomes 204; no-content with
status at least 400 synthesizes a `details` body; present content is rendered,
with `content-length` and, when a media type is set, `content-type` headers;
the scope's status code is recorded and the scope's request id is echoed as an
`x-request-id` header when known.  Rendered payloads are text here, so the
base64 branch of the source (which only fires on byte payloads of the plain
`Response` class, out of scope) leaves `isBase64Encoded` false. -/
def Handler.prepare_response (response : Response) (log : LogCtx) :
    Envelope × LogCtx :=
  let scResult : Int × Option Json :=
    match response.content with
    | none =>
      if response.status_code = 200 then (204, none)
      else if response.status_code ≥ 400 then
        (response.status_code,
         some (Json.obj [("details", Json.str (get_status_message response.status_code))]))
      else (response.status_code, none)
    | some b => (response.status_code, some b)
  let status_code := scResult.1
  let bodyHeaders : Option String × List (String × String) :=
    match scResult.2 with
    | none => (none, response.headers)
    | some b =>
      let rendered := dumps b
      let hs := dictSet response.headers "content-length" (toString rendered.length)
      let hs :=
        match response.media_type with
        | some mt => dictSet hs "content-type" mt
        | none => hs
      (some rendered, hs)
  let log2 := { log with status_code := some status_code }
  let headers :=
    match log2.request_id with
    | some rid => dictSet bodyHeaders.2 "x-request-id" rid
    | none => bodyHeaders.2
  (⟨bodyHeaders.1, toString status_code, headers, false⟩, log2)

/-- `Handler._get_route_from_event`: read `event["requestContext"]`; if it has
an `http` object take `method`/`path` from it (HTTP API), else take
`httpMethod`/`path` from the request context itself (REST API).  A missing or
non-string field is the unsupported-shape hard fault (`none`): per the spec's
event contract those fields are strings when present. -/
def Handler.get_route_from_event (event : Event) : Option (String × String) :=
  match jsonGet event.requestContext "http" with
  | some http =>
    match jsonGet http "method", jsonGet http "path" with
    | some (Json.str m), some (Json.str p) => some (m, p)
    | _, _ => none
  | none =>
    match jsonGet event.requestContext "httpMethod", jsonGet event.requestContext "path" with
    | some (Json.str m), some (Json.str p) => some (m, p)
    | _, _ => none

/-- A logged representation of a JSON value (string values log verbatim). -/
def jsonToLogStr : Json → String
  | Json.str s => s
  | j => dumps j

/-- Lines 92-95 of `Handler.__call__`: the `x-request-id` header when present,
else `event["requestContext"]["requestId"]`; `none` is the uncaught `KeyError`
when both are missing. -/
def resolve_request_id (event : Event) : Option String :=
  match Request.header ⟨event⟩ "x-request-id" with
  | some rid => some rid
  | none => (jsonGet event.requestContext "requestId").map jsonToLogStr

/-- The `except _HttpException` branch of `Handler.__call__` (lines 103-117):
record the truthy error detail, the status code and the severity band in the
scope, then produce the `detail` JSON error response. -/
def Handler.on_http_exception (log : LogCtx) (e : HTTPException) :
    Envelope × LogCtx :=
  let log :=
    match HTTPException.error_detail e with
    | some d => { log with error_detail := some d }
    | none => log
  let log := { log with status_code := some e.status_code }
  let log :=
    if e.status_code ≥ 500 then { log with level := some "error" }
    else if e.status_code ≥ 400 then { log with level := some "warning" }
    else log
  Handler.prepare_response
    (JSONResponse (some (Json.obj [("detail", Json.str (HTTPException.detail e))])) e.status_code)
    log

/-- The outcome of driving one route-function invocation through the execution
bridge (`run_async(wait_for(...))`): a returned value (possibly `None`), a
returned `Response` object, a raised HTTP failure, a raised validation failure
with its structured errors, or any other fault (timeout included). -/
inductive RouteOutcome where
  | value : Option Json → RouteOutcome
  | response : Response → RouteOutcome
  | httpError : HTTPException → RouteOutcome
  | validationError : Json → RouteOutcome
  | fault : String → RouteOutcome

/-- The execution bridge as an oracle: given the callable, its keyword
arguments and the seeded response it may mutate through injection, it yields
the outcome and the post-execution state of that seeded response. -/
abbrev ExecOracle :=
  FuncObj → List (String × Arg) → Response → RouteOutcome × Response

/-- The result of `Handler.__call__`: an envelope, or a fault propagating out
of the logging scope (which recorded it), or the hard fault raised while
extracting the route, before the scope opens. -/
inductive DispatchResult where
  | envelope : Envelope → LogCtx → DispatchResult
  | fault : String → LogCtx → DispatchResult
  | invalidEvent : String → DispatchResult
deriving DecidableEq

/-- `Handler.__call__`: extract the route, open the scope, record method and
path, prepare the request, record request id (uncaught `KeyError` if absent)
and user agent, run the route function, and map the outcome: a value becomes
the seeded response's content, a returned `Response` replaces it wholesale,
an HTTP failure and a validation failure are converted to error envelopes,
and any other fault propagates. -/
def Handler.call (routes : Routes) (exec : ExecOracle) (event : Event) :
    DispatchResult :=
  match Handler.get_route_from_event event with
  | none => DispatchResult.invalidEvent "KeyError"
  | some mp =>
    let log := { emptyLog with method := some mp.1, path := some mp.2 }
    match Handler.prepare_request routes mp.2 mp.1 event with
    | Except.error e =>
      let el := Handler.on_http_exception log e
      DispatchResult.envelope el.1 el.2
    | Except.ok rrfk =>
      match resolve_request_id event with
      | none => DispatchResult.fault "KeyError" (scope_record_fault log "KeyError")
      | some rid =>
        let log := { log with request_id := some rid }
        let log :=
          match Request.header rrfk.1 "user-agent" with
          | some ua => { log with user_agent := some ua }
          | none => log
        match exec rrfk.2.2.1 rrfk.2.2.2 rrfk.2.1 with
        | (RouteOutcome.value v, response2) =>
          let el := Handler.prepare_response { response2 with content := v } log
          DispatchResult.envelope el.1 el.2
        | (RouteOutcome.response r, _) =>
          let el := Handler.prepare_response r log
          DispatchResult.envelope el.1 el.2
        | (RouteOutcome.httpError e, _) =>
          let el := Handler.on_http_exception log e
          DispatchResult.envelope el.1 el.2
        | (RouteOutcome.validationError errs, _) =>
          let log := { log with error_detail := some (dumps errs),
                                status_code := some 422, level := some "warning" }
          let el := Handler.prepare_response
            (JSONResponse (some (Json.obj [("detail", errs)])) 422) log
          DispatchResult.envelope el.1 el.2
        | (RouteOutcome.fault f, _) =>
          DispatchResult.fault f (scope_record_fault log f)

/-- The status code of the envelope of a dispatch result, if any. -/
def envelopeStatus : DispatchResult → Option String
  | DispatchResult.envelope env _ => some env.statusCode
  | _ => none

/-- The body of the envelope of a dispatch result, if any. -/
def envelopeBody : DispatchResult → Option (Option String)
  | DispatchResult.envelope env _ => some env.body
  | _ => none

/-- The final state of the logging scope of a dispatch result, when the scope
was opened. -/
def resultLog : DispatchResult → Option LogCtx
  | DispatchResult.envelope _ lg => some lg
  | DispatchResult.fault _ lg => some lg
  | DispatchResult.invalidEvent _ => none

/-- A handler taking no parameter. -/
def baseFunc : FuncObj := FuncObj.base 0 []

/-- A handler declaring one `Request`-injected parameter named `x`. -/
def reqParamFunc : FuncObj := FuncObj.base 1 [("x", ParamKind.request)]

/-- An HTTP-API shape event for GET "/" with request id `req-1` and no body. -/
def ev1 : Event :=
  ⟨Json.obj [("http", Json.obj [("method", Json.str "GET"), ("path", Json.str "/")]),
             ("requestId", Json.str "req-1")], [], none, none, none⟩

/-- `ev1` with a JSON-array body (structured data that is not a mapping). -/
def evArrayBody : Event :=
  ⟨ev1.requestContext, [], some (Json.arr [Json.num 1, Json.num 2]), none, none⟩

/-- `ev1` with a mapping body whose key `x` collides with an injected
parameter name. -/
def evCollidingBody : Event :=
  ⟨ev1.requestContext, [], some (Json.obj [("x", Json.num 7)]), none, none⟩

/-- A table with a single GET route at "/" whose handler takes no parameter. -/
def routes1 : Routes := [("/", [("GET", ⟨baseFunc, 200, []⟩)])]

/-- A table with a single GET route at "/" whose handler has one
`Request`-injected parameter named `x`. -/
def routesInj : Routes :=
  [("/", [("GET", ⟨reqParamFunc, 200, [("x", ParamKind.request)]⟩)])]

/-- An execution oracle whose route function raises an uncategorized fault. -/
def execFault : ExecOracle :=
  fun _ _ r => (RouteOutcome.fault "RuntimeError: boom", r)

/-- An execution oracle whose route function returns `None`. -/
def execNone : ExecOracle :=
  fun _ _ r => (RouteOutcome.value none, r)

/-- An execution oracle whose route function raises the given HTTP failure. -/
def execHttp (e : HTTPException) : ExecOracle :=
  fun _ _ r => (RouteOutcome.httpError e, r)

/-- The route table produced by registering GET "/" with the explicit
registration status code 200 (no validation library). -/
def c4Routes : Routes :=
  match Handler.get [] "/" (some 200) false baseFunc with
  | Except.ok rf => rf.1
  | Except.error _ => []

/-! Helper lemmas about the Python-dict model. -/

theorem dictGet_dictSet_self {α : Type} (d : List (String × α)) (k : String) (v : α) :
    dictGet (dictSet d k v) k = some v := by
  induction d with
  | nil => simp [dictGet, dictSet]
  | cons hd tl ih =>
    obtain ⟨k', v'⟩ := hd
    by_cases h : k = k'
    · simp [dictGet, dictSet, h]
    · simp [dictGet, dictSet, h, ih]

theorem dictGet_dictSet_of_ne {α : Type} (d : List (String × α)) (k n : String) (v : α)
    (h : n ≠ k) : dictGet (dictSet d k v) n = dictGet d n := by
  induction d with
  | nil => simp [dictGet, dictSet, h]
  | cons hd tl ih =>
    obtain ⟨k', v'⟩ := hd
    by_cases hk : k = k'
    · subst hk
      simp [dictGet, dictSet, h]
    · by_cases hn : n = k'
      · simp [dictGet, dictSet, hk, hn]
      · simp [dictGet, dictSet, hk, hn, ih]

theorem mem_dictSet {α : Type} (d : List (String × α)) (k : String) (v : α)
    (q : String × α) (h : q ∈ dictSet d k v) : q ∈ d ∨ q = (k, v) := by
  induction d with
  | nil => simpa [dictSet] using h
  | cons hd tl ih =>
    obtain ⟨k', v'⟩ := hd
    by_cases hk : k = k'
    · simp only [dictSet, if_pos hk] at h
      rcases List.mem_cons.mp h with h1 | h1
      · right; rw [h1]
      · left; exact List.mem_cons_of_mem _ h1
    · simp only [dictSet, if_neg hk] at h
      rcases List.mem_cons.mp h with h1 | h1
      · left; exact h1 ▸ List.mem_cons_self _ _
      · rcases ih h1 with h2 | h2
        · left; exact List.mem_cons_of_mem _ h2
        · right; exact h2

theorem dictGet_kwfoldl_of_not_mem (params : List (String × ParamKind))
    (acc : List (String × Arg)) (n : String)
    (h : ∀ p ∈ params, p.1 ≠ n) :
    dictGet (params.foldl (fun kw p => dictSet kw p.1 (injectArg p.2)) acc) n =
      dictGet acc n := by
  induction params generalizing acc with
  | nil => rfl
  | cons hd tl ih =>
    simp only [List.foldl_cons]
    rw [ih _ (fun p hp => h p (List.mem_cons_of_mem _ hp))]
    exact dictGet_dictSet_of_ne _ _ _ _
      (fun he => h hd (List.mem_cons_self _ _) he.symm)

theorem dictGet_kwfoldl_inject (params : List (String × ParamKind))
    (acc : List (String × Arg)) (n : String) (k : ParamKind)
    (hnd : (params.map Prod.fst).Nodup)
    (hp : dictGet params n = some k) :
    dictGet (params.foldl (fun kw p => dictSet kw p.1 (injectArg p.2)) acc) n =
      some (injectArg k) := by
  induction params generalizing acc with
  | nil => simp [dictGet] at hp
  | cons hd tl ih =>
    obtain ⟨m, km⟩ := hd
    rw [List.map_cons, List.nodup_cons] at hnd
    simp only [List.foldl_cons]
    by_cases h : n = m
    · subst h
      have hk : k = km := by
        have := hp
        simp [dictGet] at this
        exact this.symm
      subst hk
      have hnot : ∀ p ∈ tl, p.1 ≠ n := by
        intro p hp' he
        have hmem : p.1 ∈ tl.map Prod.fst := List.mem_map_of_mem Prod.fst hp'
        rw [he] at hmem
        exact hnd.1 hmem
      rw [dictGet_kwfoldl_of_not_mem tl _ n hnot, dictGet_dictSet_self]
    · have hp' : dictGet tl n = some k := by
        have := hp
        simpa [dictGet, h] using this
      exact ih _ hnd.2 hp'

theorem kwfoldl_inject_only (params : List (String × ParamKind))
    (acc : List (String × Arg))
    (hacc : ∀ q ∈ acc, q.2 = Arg.injRequest ∨ q.2 = Arg.injResponse) :
    ∀ q ∈ params.foldl (fun kw p => dictSet kw p.1 (injectArg p.2)) acc,
      q.2 = Arg.injRequest ∨ q.2 = Arg.injResponse := by
  induction params generalizing acc with
  | nil => exact hacc
  | cons hd tl ih =>
    simp only [List.foldl_cons]
    refine ih _ ?_
    intro q hq
    rcases mem_dictSet _ _ _ _ hq with h | h
    · exact hacc q h
    · rw [h]
      cases hk : hd.2 <;> simp [injectArg]

/-! Claim theorems. -/

/-- Claim C1: for every dispatched invocation whose decoded request body is a
mapping containing a key equal to a parameter name flagged at registration for
Request or Response injection, the handler is called with the live Request
(respectively Response) object bound to that parameter and the same-named body
field is dropped; the body value is never passed for an injected parameter
position. -/
theorem C1_injected_params_override_body
    (routes : Routes) (path method : String) (event : Event)
    (path_routes : List (String × APIRoute)) (route : APIRoute)
    (fields : List (String × Json)) (n : String) (k : ParamKind) (v : Json)
    (hpr : dictGet routes path = some path_routes)
    (hmr : dictGet path_routes method = some route)
    (hnd : (route.params.map Prod.fst).Nodup)
    (hp : dictGet route.params n = some k)
    (hbody : event.body = some (Json.obj fields))
    (hcollide : dictGet fields n = some v) :
    Handler.prepare_request routes path method event =
      Except.ok (⟨event⟩, JSONResponse none route.status_code, route.func,
                 prepareKwargs (some (Json.obj fields)) route.params)
    ∧ dictGet (prepareKwargs (some (Json.obj fields)) route.params) n =
        some (injectArg k)
    ∧ dictGet (prepareKwargs (some (Json.obj fields)) route.params) n ≠
        some (Arg.fromBody v) := by
  have h2 : dictGet (prepareKwargs (some (Json.obj fields)) route.params) n =
      some (injectArg k) := by
    unfold prepareKwargs
    exact dictGet_kwfoldl_inject _ _ _ _ hnd hp
  refine ⟨?_, h2, ?_⟩
  · simp [Handler.prepare_request, hpr, hmr, Request.json, hbody]
  · rw [h2]
    cases k <;> simp [injectArg]

/-- Witness for C1 at a concrete invocation: route GET "/" with an injected
Request parameter `x`, body `{"x": 7}`. -/
theorem C1_injected_params_override_body_witness :
    dictGet routesInj "/" = some [("GET", ⟨reqParamFunc, 200, [("x", ParamKind.request)]⟩)]
    ∧ evCollidingBody.body = some (Json.obj [("x", Json.num 7)])
    ∧ (Handler.prepare_request routesInj "/" "GET" evCollidingBody =
        Except.ok (⟨evCollidingBody⟩, JSONResponse none 200, reqParamFunc,
                   prepareKwargs (some (Json.obj [("x", Json.num 7)])) [("x", ParamKind.request)])
      ∧ dictGet (prepareKwargs (some (Json.obj [("x", Json.num 7)])) [("x", ParamKind.request)]) "x" =
          some (injectArg ParamKind.request)
      ∧ dictGet (prepareKwargs (some (Json.obj [("x", Json.num 7)])) [("x", ParamKind.request)]) "x" ≠
          some (Arg.fromBody (Json.num 7))) :=
  ⟨rfl, rfl,
   C1_injected_params_override_body routesInj "/" "GET" evCollidingBody
     [("GET", ⟨reqParamFunc, 200, [("x", ParamKind.request)]⟩)]
     ⟨reqParamFunc, 200, [("x", ParamKind.request)]⟩
     [("x", Json.num 7)] "x" ParamKind.request (Json.num 7)
     rfl rfl (by simp) rfl rfl rfl⟩

/-- Claim C9: for every dispatched invocation whose decoded request body is
absent or is structured data that is not a mapping, no error is raised at the
body-merging step: every body-derived keyword argument set is empty and the
handler is called with only the injected Request/Response parameters. -/
theorem C9_non_mapping_body_yields_injections_only
    (routes : Routes) (path method : String) (event : Event)
    (path_routes : List (String × APIRoute)) (route : APIRoute)
    (hpr : dictGet routes path = some path_routes)
    (hmr : dictGet path_routes method = some route)
    (hbody : ∀ fields, event.body ≠ some (Json.obj fields)) :
    Handler.prepare_request routes path method event =
      Except.ok (⟨event⟩, JSONResponse none route.status_code, route.func,
                 prepareKwargs event.body route.params)
    ∧ ∀ q ∈ prepareKwargs event.body route.params,
        q.2 = Arg.injRequest ∨ q.2 = Arg.injResponse := by
  constructor
  · simp [Handler.prepare_request, hpr, hmr, Request.json]
  · have hinit :
        (match event.body with
          | some (Json.obj fields) => fields.map (fun p => (p.1, Arg.fromBody p.2))
          | _ => ([] : List (String × Arg))) = [] := by
      match hb : event.body with
      | none => rfl
      | some Json.null => rfl
      | some (Json.str _) => rfl
      | some (Json.num _) => rfl
      | some (Json.bool _) => rfl
      | some (Json.arr _) => rfl
      | some (Json.obj fields) => exact absurd hb (hbody fields)
    unfold prepareKwargs
    rw [hinit]
    exact kwfoldl_inject_only _ _ (by intro q hq; cases hq)

/-- Witness for C9 at a concrete invocation: route GET "/" with a
Request-injected parameter, body `[1, 2]` (a JSON array). -/
theorem C9_non_mapping_body_yields_injections_only_witness :
    dictGet routesInj "/" = some [("GET", ⟨reqParamFunc, 200, [("x", ParamKind.request)]⟩)]
    ∧ evArrayBody.body = some (Json.arr [Json.num 1, Json.num 2])
    ∧ (Handler.prepare_request routesInj "/" "GET" evArrayBody =
        Except.ok (⟨evArrayBody⟩, JSONResponse none 200, reqParamFunc,
                   prepareKwargs evArrayBody.body [("x", ParamKind.request)])
      ∧ ∀ q ∈ prepareKwargs evArrayBody.body [("x", ParamKind.request)],
          q.2 = Arg.injRequest ∨ q.2 = Arg.injResponse) :=
  ⟨rfl, rfl,
   C9_non_mapping_body_yields_injections_only routesInj "/" "GET" evArrayBody
     [("GET", ⟨reqParamFunc, 200, [("x", ParamKind.request)]⟩)]
     ⟨reqParamFunc, 200, [("x", ParamKind.request)]⟩
     rfl rfl (by intro fields h; simp [evArrayBody] at h)⟩

/-- Claim C2: for every invocation in which the handler (or the execution
bridge, e.g. on timeout) raises a fault that is neither an HTTP failure nor a
validation failure, the dispatcher's handle operation does not return a
response envelope: the fault propagates out of handle to the invocation host,
and no exception-to-response mapping is applied to it (the logging scope,
modelled from the spec, records status 500, level "critical" and the
diagnostic trace before re-raising). -/
theorem C2_uncaught_fault_propagates
    (routes : Routes) (exec : ExecOracle) (event : Event)
    (method path : String) (req : Request) (resp : Response) (fn : FuncObj)
    (kwargs : List (String × Arg)) (rid f : String) (resp2 : Response)
    (h1 : Handler.get_route_from_event event = some (method, path))
    (h2 : Handler.prepare_request routes path method event =
            Except.ok (req, resp, fn, kwargs))
    (h3 : resolve_request_id event = some rid)
    (h4 : exec fn kwargs resp = (RouteOutcome.fault f, resp2)) :
    ∃ lg, Handler.call routes exec event = DispatchResult.fault f lg
      ∧ lg.status_code = some 500
      ∧ lg.level = some "critical"
      ∧ lg.error_detail = some f := by
  cases hua : Request.header req "user-agent" with
  | none =>
    refine ⟨⟨some method, some path, some rid, none, some 500, some "critical", some f⟩,
            ?_, rfl, rfl, rfl⟩
    simp [Handler.call, h1, h2, h3, h4, hua, scope_record_fault, emptyLog]
  | some ua =>
    refine ⟨⟨some method, some path, some rid, some ua, some 500, some "critical", some f⟩,
            ?_, rfl, rfl, rfl⟩
    simp [Handler.call, h1, h2, h3, h4, hua, scope_record_fault, emptyLog]

/-- Witness for C2 at a concrete invocation: registered GET "/" whose
execution raises a RuntimeError. -/
theorem C2_uncaught_fault_propagates_witness :
    Handler.get_route_from_event ev1 = some ("GET", "/")
    ∧ resolve_request_id ev1 = some "req-1"
    ∧ (∃ lg, Handler.call routes1 execFault ev1 =
          DispatchResult.fault "RuntimeError: boom" lg
        ∧ lg.status_code = some 500
        ∧ lg.level = some "critical"
        ∧ lg.error_detail = some "RuntimeError: boom") :=
  ⟨rfl, rfl,
   C2_uncaught_fault_propagates routes1 execFault ev1 "GET" "/"
     ⟨ev1⟩ (JSONResponse none 200) baseFunc [] "req-1" "RuntimeError: boom"
     (JSONResponse none 200) rfl rfl rfl rfl⟩

/-- Claim C3: if the extracted path is registered for no method at all, handle
returns an envelope with statusCode "404" and body `{"detail":"Not Found"}`;
if the path is registered but not for the extracted method, handle returns an
envelope with the distinct statusCode "405" and body
`{"detail":"Method Not Allowed"}`; the two routing failures are never
conflated. -/
theorem C3_not_found_vs_method_not_allowed
    (routes : Routes) (exec : ExecOracle) (event : Event)
    (method path : String)
    (hev : Handler.get_route_from_event event = some (method, path)) :
    (dictGet routes path = none →
      envelopeStatus (Handler.call routes exec event) = some "404"
      ∧ envelopeBody (Handler.call routes exec event) =
          some (some "\x7b\"detail\":\"Not Found\"\x7d"))
    ∧ (∀ path_routes, dictGet routes path = some path_routes →
        dictGet path_routes method = none →
        envelopeStatus (Handler.call routes exec event) = some "405"
        ∧ envelopeBody (Handler.call routes exec event) =
            some (some "\x7b\"detail\":\"Method Not Allowed\"\x7d")) := by
  constructor
  · intro h
    simp [Handler.call, hev, Handler.prepare_request, h,
          Handler.on_http_exception, HTTPException.error_detail,
          HTTPException.detail, truthy, get_status_message,
          Handler.prepare_response, JSONResponse, emptyLog,
          envelopeStatus, envelopeBody]
    exact ⟨rfl, rfl⟩
  · intro path_routes h hm
    simp [Handler.call, hev, Handler.prepare_request, h, hm,
          Handler.on_http_exception, HTTPException.error_detail,
          HTTPException.detail, truthy, get_status_message,
          Handler.prepare_response, JSONResponse, emptyLog,
          envelopeStatus, envelopeBody]
    exact ⟨rfl, rfl⟩

/-- Witness for C3 at concrete invocations: table with only GET "/", invoked
for path "/missing" (404) and for PUT "/" (405). -/
theorem C3_not_found_vs_method_not_allowed_witness :
    (dictGet routes1 "/missing" = none
      ∧ envelopeStatus (Handler.call routes1 execNone
          ⟨Json.obj [("http", Json.obj [("method", Json.str "GET"), ("path", Json.str "/missing")]),
                     ("requestId", Json.str "req-1")], [], none, none, none⟩) = some "404"
      ∧ envelopeBody (Handler.call routes1 execNone
          ⟨Json.obj [("http", Json.obj [("method", Json.str "GET"), ("path", Json.str "/missing")]),
                     ("requestId", Json.str "req-1")], [], none, none, none⟩) =
          some (some "\x7b\"detail\":\"Not Found\"\x7d"))
    ∧ (dictGet routes1 "/" = some [("GET", ⟨baseFunc, 200, []⟩)]
      ∧ dictGet [("GET", (⟨baseFunc, 200, []⟩ : APIRoute))] "PUT" = none
      ∧ envelopeStatus (Handler.call routes1 execNone
          ⟨Json.obj [("http", Json.obj [("method", Json.str "PUT"), ("path", Json.str "/")]),
                     ("requestId", Json.str "req-1")], [], none, none, none⟩) = some "405"
      ∧ envelopeBody (Handler.call routes1 execNone
          ⟨Json.obj [("http", Json.obj [("method", Json.str "PUT"), ("path", Json.str "/")]),
                     ("requestId", Json.str "req-1")], [], none, none, none⟩) =
          some (some "\x7b\"detail\":\"Method Not Allowed\"\x7d")) :=
  ⟨⟨rfl,
    (C3_not_found_vs_method_not_allowed routes1 execNone
      ⟨Json.obj [("http", Json.obj [("method", Json.str "GET"), ("path", Json.str "/missing")]),
                 ("requestId", Json.str "req-1")], [], none, none, none⟩
      "GET" "/missing" rfl).1 rfl⟩,
   ⟨rfl, rfl,
    (C3_not_found_vs_method_not_allowed routes1 execNone
      ⟨Json.obj [("http", Json.obj [("method", Json.str "PUT"), ("path", Json.str "/")]),
                 ("requestId", Json.str "req-1")], [], none, none, none⟩
      "PUT" "/" rfl).2 [("GET", ⟨baseFunc, 200, []⟩)] rfl rfl⟩⟩

/-- Counterexample to claim C4: GET "/" is registered with the explicit
registration status code 200; its handler returns no content; the claim says
such an explicitly-set 200 is never rewritten, yet the envelope's status code
is "204", not "200". -/
theorem C4_counterexample :
    Handler.get ([] : Routes) "/" (some 200) false baseFunc =
      Except.ok (c4Routes, baseFunc)
    ∧ envelopeStatus (Handler.call c4Routes execNone ev1) = some "204"
    ∧ (some "204" : Option String) ≠ some "200" :=
  ⟨rfl, rfl, by decide⟩

/-- Claim C4, amended: during envelope construction, a Response with absent
content and status code 200 has its status rewritten to 204 whenever that is
the case — the rewrite applies to any 200 with absent content, whether the 200
is the route's default success code or was explicitly set (on the injected
Response or as the route's explicit registration status code): the dispatcher
cannot and does not distinguish the two. -/
theorem C4_no_content_200_rewritten_to_204 (r : Response) (log : LogCtx)
    (hc : r.content = none) (hs : r.status_code = 200) :
    (Handler.prepare_response r log).1.statusCode = "204"
    ∧ (Handler.prepare_response r log).2.status_code = some 204 := by
  constructor <;> simp [Handler.prepare_response, hc, hs] <;> rfl

/-- Witness for the amended C4 at a concrete response: a fresh JSON response
with status 200 and no content. -/
theorem C4_no_content_200_rewritten_to_204_witness :
    (JSONResponse none 200).content = none
    ∧ (JSONResponse none 200).status_code = 200
    ∧ ((Handler.prepare_response (JSONResponse none 200) emptyLog).1.statusCode = "204"
      ∧ (Handler.prepare_response (JSONResponse none 200) emptyLog).2.status_code = some 204) :=
  ⟨rfl, rfl, C4_no_content_200_rewritten_to_204 (JSONResponse none 200) emptyLog rfl rfl⟩

/-- Counterexample to claim C5: a handler raises an HTTP failure with status
400 and the explicitly supplied public detail `""`; the claim says the body is
then `{"detail": ""}`, yet the dispatcher falls back to the reason phrase
(Python truthiness of `self._detail or ...`) and the body is
`{"detail":"Bad Request"}`. -/
theorem C5_counterexample :
    (⟨400, some "", none, none⟩ : HTTPException)._detail = some ""
    ∧ envelopeBody (Handler.call routes1 (execHttp ⟨400, some "", none, none⟩) ev1) =
        some (some "\x7b\"detail\":\"Bad Request\"\x7d")
    ∧ (some (some "\x7b\"detail\":\"Bad Request\"\x7d") : Option (Option String)) ≠
        some (some "\x7b\"detail\":\"\"\x7d") :=
  ⟨rfl, rfl, by decide⟩

/-- Claim C5, amended: for every handler that raises an HTTP failure with
status code C and no public detail, handle returns an envelope with status C
and body `{"detail": <reason phrase for C>}`; a supplied non-empty public
detail overrides the body detail; a supplied empty-string detail is falsy in
the source's `self._detail or _get_status_message(...)` and also falls back to
the reason phrase. -/
theorem C5_http_failure_detail_body
    (routes : Routes) (exec : ExecOracle) (event : Event)
    (method path : String) (req : Request) (resp : Response) (fn : FuncObj)
    (kwargs : List (String × Arg)) (rid : String) (e : HTTPException)
    (resp2 : Response)
    (h1 : Handler.get_route_from_event event = some (method, path))
    (h2 : Handler.prepare_request routes path method event =
            Except.ok (req, resp, fn, kwargs))
    (h3 : resolve_request_id event = some rid)
    (h4 : exec fn kwargs resp = (RouteOutcome.httpError e, resp2)) :
    envelopeBody (Handler.call routes exec event) =
      some (some (dumps (Json.obj [("detail", Json.str (HTTPException.detail e))])))
    ∧ envelopeStatus (Handler.call routes exec event) = some (toString e.status_code)
    ∧ (e._detail = none → HTTPException.detail e = get_status_message e.status_code)
    ∧ (∀ d, e._detail = some d → d ≠ "" → HTTPException.detail e = d)
    ∧ (e._detail = some "" → HTTPException.detail e = get_status_message e.status_code) := by
  refine ⟨?_, ?_, ?_, ?_, ?_⟩
  · cases hua : Request.header req "user-agent" <;>
      simp [Handler.call, h1, h2, h3, h4, hua, envelopeBody,
            Handler.on_http_exception, Handler.prepare_response, JSONResponse]
  · cases hua : Request.header req "user-agent" <;>
      simp [Handler.call, h1, h2, h3, h4, hua, envelopeStatus,
            Handler.on_http_exception, Handler.prepare_response, JSONResponse]
  · intro h
    simp [HTTPException.detail, h]
  · intro d hd hne
    simp [HTTPException.detail, hd, hne]
  · intro h
    simp [HTTPException.detail, h]

/-- Witness for the amended C5 at a concrete invocation: a handler raising an
HTTP failure with status 503 and no detail. -/
theorem C5_http_failure_detail_body_witness :
    Handler.get_route_from_event ev1 = some ("GET", "/")
    ∧ resolve_request_id ev1 = some "req-1"
    ∧ (envelopeBody (Handler.call routes1 (execHttp ⟨503, none, none, none⟩) ev1) =
        some (some (dumps (Json.obj [("detail", Json.str (HTTPException.detail ⟨503, none, none, none⟩))])))
      ∧ envelopeStatus (Handler.call routes1 (execHttp ⟨503, none, none, none⟩) ev1) =
          some (toString (503 : Int))
      ∧ ((⟨503, none, none, none⟩ : HTTPException)._detail = none →
          HTTPException.detail ⟨503, none, none, none⟩ = get_status_message 503)
      ∧ (∀ d, (⟨503, none, none, none⟩ : HTTPException)._detail = some d → d ≠ "" →
          HTTPException.detail ⟨503, none, none, none⟩ = d)
      ∧ ((⟨503, none, none, none⟩ : HTTPException)._detail = some "" →
          HTTPException.detail ⟨503, none, none, none⟩ = get_status_message 503)) :=
  ⟨rfl, rfl,
   C5_http_failure_detail_body routes1 (execHttp ⟨503, none, none, none⟩) ev1
     "GET" "/" ⟨ev1⟩ (JSONResponse none 200) baseFunc [] "req-1"
     ⟨503, none, none, none⟩ (JSONResponse none 200) rfl rfl rfl rfl⟩

theorem on_http_exception_log_of_clean (log : LogCtx) (e : HTTPException)
    (hed : log.error_detail = none) (hlv : log.level = none) :
    (Handler.on_http_exception log e).2 =
      { log with error_detail := HTTPException.error_detail e,
                 status_code := some e.status_code,
                 level := if e.status_code ≥ 500 then some "error"
                          else if e.status_code ≥ 400 then some "warning"
                          else none } := by
  obtain ⟨m, p, rid, ua, sc, lvl, ed⟩ := log
  simp only [LogCtx.error_detail] at hed
  simp only [LogCtx.level] at hlv
  subst hed hlv
  cases hx : HTTPException.error_detail e <;>
    by_cases h5 : e.status_code ≥ 500 <;> by_cases h4 : e.status_code ≥ 400 <;>
      simp [Handler.on_http_exception, hx, h5, h4,
            Handler.prepare_response, JSONResponse]

/-- Counterexample to claim C6: a handler raises an HTTP failure carrying only
a public detail ("Custom Error Message") and no diagnostic detail; the claim
says the log field `error_detail` is then left unset, yet the dispatcher logs
the public detail as `error_detail` (the source's `error_detail` property
falls back to `_detail`). -/
theorem C6_counterexample :
    (⟨400, some "Custom Error Message", none, none⟩ : HTTPException)._error_detail = none
    ∧ resultLog (Handler.call routes1
        (execHttp ⟨400, some "Custom Error Message", none, none⟩) ev1) =
      some ⟨some "GET", some "/", some "req-1", none, some 400, some "warning",
            some "Custom Error Message"⟩
    ∧ (some "Custom Error Message" : Option String) ≠ none :=
  ⟨rfl, rfl, by decide⟩

/-- Claim C6, amended: for every handler-raised HTTP failure, the logging
scope's level is set to "error" if the status code is at least 500, to
"warning" if it is in [400, 500), and is not elevated otherwise; and the log
field `error_detail` is set to the failure's `error_detail` property: the
diagnostic (private) detail when one is truthy, else the public detail when
one is truthy (so a failure carrying only a public detail logs that detail),
and it is left unset only when both are absent or empty. -/
theorem C6_http_failure_logging
    (routes : Routes) (exec : ExecOracle) (event : Event)
    (method path : String) (req : Request) (resp : Response) (fn : FuncObj)
    (kwargs : List (String × Arg)) (rid : String) (e : HTTPException)
    (resp2 : Response)
    (h1 : Handler.get_route_from_event event = some (method, path))
    (h2 : Handler.prepare_request routes path method event =
            Except.ok (req, resp, fn, kwargs))
    (h3 : resolve_request_id event = some rid)
    (h4 : exec fn kwargs resp = (RouteOutcome.httpError e, resp2)) :
    (resultLog (Handler.call routes exec event)).map (fun lg => lg.error_detail) =
      some (HTTPException.error_detail e)
    ∧ (resultLog (Handler.call routes exec event)).map (fun lg => lg.level) =
      some (if e.status_code ≥ 500 then some "error"
            else if e.status_code ≥ 400 then some "warning" else none) := by
  cases hua : Request.header req "user-agent" with
  | none =>
    have hc : Handler.call routes exec event =
        DispatchResult.envelope
          (Handler.on_http_exception
            ⟨some method, some path, some rid, none, none, none, none⟩ e).1
          (Handler.on_http_exception
            ⟨some method, some path, some rid, none, none, none, none⟩ e).2 := by
      simp [Handler.call, h1, h2, h3, h4, hua, emptyLog]
    rw [hc]
    rw [show (Handler.on_http_exception
          ⟨some method, some path, some rid, none, none, none, none⟩ e).2 = _
        from on_http_exception_log_of_clean _ e rfl rfl]
    simp [resultLog]
  | some ua =>
    have hc : Handler.call routes exec event =
        DispatchResult.envelope
          (Handler.on_http_exception
            ⟨some method, some path, some rid, some ua, none, none, none⟩ e).1
          (Handler.on_http_exception
            ⟨some method, some path, some rid, some ua, none, none, none⟩ e).2 := by
      simp [Handler.call, h1, h2, h3, h4, hua, emptyLog]
    rw [hc]
    rw [show (Handler.on_http_exception
          ⟨some method, some path, some rid, some ua, none, none, none⟩ e).2 = _
        from on_http_exception_log_of_clean _ e rfl rfl]
    simp [resultLog]

/-- Witness for the amended C6 at a concrete invocation: a handler raising an
HTTP failure with status 503, a public detail and a diagnostic detail. -/
theorem C6_http_failure_logging_witness :
    Handler.get_route_from_event ev1 = some ("GET", "/")
    ∧ resolve_request_id ev1 = some "req-1"
    ∧ ((resultLog (Handler.call routes1
          (execHttp ⟨503, some "pub", some "diag", none⟩) ev1)).map (fun lg => lg.error_detail) =
        some (HTTPException.error_detail ⟨503, some "pub", some "diag", none⟩)
      ∧ (resultLog (Handler.call routes1
          (execHttp ⟨503, some "pub", some "diag", none⟩) ev1)).map (fun lg => lg.level) =
        some (if (503 : Int) ≥ 500 then some "error"
              else if (503 : Int) ≥ 400 then some "warning" else none)) :=
  ⟨rfl, rfl,
   C6_http_failure_logging routes1 (execHttp ⟨503, some "pub", some "diag", none⟩) ev1
     "GET" "/" ⟨ev1⟩ (JSONResponse none 200) baseFunc [] "req-1"
     ⟨503, some "pub", some "diag", none⟩ (JSONResponse none 200) rfl rfl rfl rfl⟩

/-- Counterexample to claim C7: an event of the legacy shape — its request
context has no nested "http" object, and "httpMethod" and "path" are top-level
event fields (holding "PUT" and "/top") — while the request context's own
"httpMethod"/"path" fields hold "GET" and "/rc".  The claim says extraction
uses the top-level event fields, yet the dispatcher extracts ("GET", "/rc")
from the request context and ignores the top-level fields. -/
theorem C7_counterexample :
    (Event.mk (Json.obj [("httpMethod", Json.str "GET"), ("path", Json.str "/rc")])
        [] none (some "PUT") (some "/top")).httpMethod = some "PUT"
    ∧ jsonGet (Event.mk (Json.obj [("httpMethod", Json.str "GET"), ("path", Json.str "/rc")])
        [] none (some "PUT") (some "/top")).requestContext "http" = none
    ∧ Handler.get_route_from_event
        (Event.mk (Json.obj [("httpMethod", Json.str "GET"), ("path", Json.str "/rc")])
          [] none (some "PUT") (some "/top")) = some ("GET", "/rc")
    ∧ (some (("GET" : String), ("/rc" : String)) : Option (String × String)) ≠
        some ("PUT", "/top") :=
  ⟨rfl, rfl, rfl, by decide⟩

/-- Claim C7, amended: for every inbound event of the legacy shape — one whose
request context has no nested "http" object — the dispatcher extracts
(method, path) from the "httpMethod" and "path" fields of the request context
(not from top-level event fields, which play no part in extraction); for the
other shape it extracts them from the nested "http" object's "method" and
"path" fields. -/
theorem C7_route_extraction_shapes (event : Event) (m p : String) :
    (jsonGet event.requestContext "http" = none →
      jsonGet event.requestContext "httpMethod" = some (Json.str m) →
      jsonGet event.requestContext "path" = some (Json.str p) →
      Handler.get_route_from_event event = some (m, p))
    ∧ (∀ http, jsonGet event.requestContext "http" = some http →
        jsonGet http "method" = some (Json.str m) →
        jsonGet http "path" = some (Json.str p) →
        Handler.get_route_from_event event = some (m, p)) := by
  constructor
  · intro h0 h1 h2
    simp [Handler.get_route_from_event, h0, h1, h2]
  · intro http h0 h1 h2
    simp [Handler.get_route_from_event, h0, h1, h2]

/-- Witness for the amended C7 at concrete events of both shapes. -/
theorem C7_route_extraction_shapes_witness :
    (jsonGet (Event.mk (Json.obj [("httpMethod", Json.str "GET"), ("path", Json.str "/rc")])
        [] none none none).requestContext "http" = none
      ∧ Handler.get_route_from_event
          (Event.mk (Json.obj [("httpMethod", Json.str "GET"), ("path", Json.str "/rc")])
            [] none none none) = some ("GET", "/rc"))
    ∧ (jsonGet ev1.requestContext "http" =
        some (Json.obj [("method", Json.str "GET"), ("path", Json.str "/")])
      ∧ Handler.get_route_from_event ev1 = some ("GET", "/")) :=
  ⟨⟨rfl,
    (C7_route_extraction_shapes
      (Event.mk (Json.obj [("httpMethod", Json.str "GET"), ("path", Json.str "/rc")])
        [] none none none) "GET" "/rc").1 rfl rfl rfl⟩,
   ⟨rfl,
    (C7_route_extraction_shapes ev1 "GET" "/").2
      (Json.obj [("method", Json.str "GET"), ("path", Json.str "/")]) rfl rfl rfl⟩⟩

/-- Counterexample to claim C8: with the optional validation library present
(as in the repository's own test environment), registering a handler on a
fresh (path, method) pair returns the validation wrapper, which is not the
very same callable that was passed in. -/
theorem C8_counterexample :
    Handler.get ([] : Routes) "/" none true (FuncObj.base 0 []) =
      Except.ok ([("/", [("GET", ⟨FuncObj.validated (FuncObj.base 0 []), 200, []⟩)])],
                 FuncObj.validated (FuncObj.base 0 []))
    ∧ FuncObj.validated (FuncObj.base 0 []) ≠ FuncObj.base 0 [] :=
  ⟨rfl, by decide⟩

/-- Claim C8, amended: every method-specific registration operation (get,
post, put, patch, delete, head, options) is the generic registration at its
method; applied to a handler on a fresh (path, method) pair it succeeds and
returns the registered callable — the handler itself (unchanged) when the
optional validation library is absent, and the validation wrapper of the
handler (a distinct callable with the same calling convention) when the
library is present — and the route table stores exactly the returned
callable; registration is a side effect on the route table, not a
transformation of the handler's calling convention. -/
theorem C8_registration_returns_registered_callable
    (routes : Routes) (path : String) (status_code : Option Int)
    (has_validator : Bool) (func : FuncObj) :
    Handler.get routes path status_code has_validator func =
      Handler.api_route routes path "GET" status_code has_validator func
    ∧ Handler.post routes path status_code has_validator func =
      Handler.api_route routes path "POST" status_code has_validator func
    ∧ Handler.put routes path status_code has_validator func =
      Handler.api_route routes path "PUT" status_code has_validator func
    ∧ Handler.patch routes path status_code has_validator func =
      Handler.api_route routes path "PATCH" status_code has_validator func
    ∧ Handler.delete routes path status_code has_validator func =
      Handler.api_route routes path "DELETE" status_code has_validator func
    ∧ Handler.head routes path status_code has_validator func =
      Handler.api_route routes path "HEAD" status_code has_validator func
    ∧ Handler.options routes path status_code has_validator func =
      Handler.api_route routes path "OPTIONS" status_code has_validator func
    ∧ ∀ method, dictGet ((dictGet routes path).getD []) method = none →
        Handler.api_route routes path method status_code has_validator func =
          Except.ok
            (dictSet routes path
              (dictSet ((dictGet routes path).getD []) method
                ⟨(if has_validator then FuncObj.validated func else func),
                 statusOr200 status_code, Handler.check_signature func⟩),
             if has_validator then FuncObj.validated func else func)
        ∧ dictGet ((dictGet (dictSet routes path
              (dictSet ((dictGet routes path).getD []) method
                ⟨(if has_validator then FuncObj.validated func else func),
                 statusOr200 status_code, Handler.check_signature func⟩)) path).getD [])
            method =
          some ⟨(if has_validator then FuncObj.validated func else func),
                statusOr200 status_code, Handler.check_signature func⟩
        ∧ (has_validator = false →
            (if has_validator then FuncObj.validated func else func) = func) := by
  refine ⟨rfl, rfl, rfl, rfl, rfl, rfl, rfl, ?_⟩
  intro method h
  refine ⟨?_, ?_, ?_⟩
  · simp [Handler.api_route, h]
  · rw [dictGet_dictSet_self]
    simp [dictGet_dictSet_self]
  · intro hv
    simp [hv]

/-- Witness for the amended C8 at a concrete registration: GET "/" on an empty
table, with and without the validation library. -/
theorem C8_registration_returns_registered_callable_witness :
    dictGet ((dictGet ([] : Routes) "/").getD []) "GET" = none
    ∧ (Handler.api_route ([] : Routes) "/" "GET" none true (FuncObj.base 0 []) =
        Except.ok
          (dictSet ([] : Routes) "/"
            (dictSet ((dictGet ([] : Routes) "/").getD []) "GET"
              ⟨(if true then FuncObj.validated (FuncObj.base 0 []) else FuncObj.base 0 []),
               statusOr200 none, Handler.check_signature (FuncObj.base 0 [])⟩),
           if true then FuncObj.validated (FuncObj.base 0 []) else FuncObj.base 0 [])
      ∧ dictGet ((dictGet (dictSet ([] : Routes) "/"
            (dictSet ((dictGet ([] : Routes) "/").getD []) "GET"
              ⟨(if true then FuncObj.validated (FuncObj.base 0 []) else FuncObj.base 0 []),
               statusOr200 none, Handler.check_signature (FuncObj.base 0 [])⟩)) "/").getD [])
          "GET" =
        some ⟨(if true then FuncObj.validated (FuncObj.base 0 []) else FuncObj.base 0 []),
              statusOr200 none, Handler.check_signature (FuncObj.base 0 [])⟩
      ∧ (true = false →
          (if true then FuncObj.validated (FuncObj.base 0 []) else FuncObj.base 0 []) =
            FuncObj.base 0 []))
    ∧ (Handler.api_route ([] : Routes) "/" "GET" none false (FuncObj.base 0 []) =
        Except.ok
          (dictSet ([] : Routes) "/"
            (dictSet ((dictGet ([] : Routes) "/").getD []) "GET"
              ⟨(if false then FuncObj.validated (FuncObj.base 0 []) else FuncObj.base 0 []),
               statusOr200 none, Handler.check_signature (FuncObj.base 0 [])⟩),
           if false then FuncObj.validated (FuncObj.base 0 []) else FuncObj.base 0 [])
      ∧ dictGet ((dictGet (dictSet ([] : Routes) "/"
            (dictSet ((dictGet ([] : Routes) "/").getD []) "GET"
              ⟨(if false then FuncObj.validated (FuncObj.base 0 []) else FuncObj.base 0 []),
               statusOr200 none, Handler.check_signature (FuncObj.base 0 [])⟩)) "/").getD [])
          "GET" =
        some ⟨(if false then FuncObj.validated (FuncObj.base 0 []) else FuncObj.base 0 []),
              statusOr200 none, Handler.check_signature (FuncObj.base 0 [])⟩
      ∧ (false = false →
          (if false then FuncObj.validated (FuncObj.base 0 []) else FuncObj.base 0 []) =
            FuncObj.base 0 [])) :=
  ⟨rfl,
   (C8_registration_returns_registered_callable ([] : Routes) "/" none true
      (FuncObj.base 0 [])).2.2.2.2.2.2.2 "GET" rfl,
   (C8_registration_returns_registered_callable ([] : Routes) "/" none false
      (FuncObj.base 0 [])).2.2.2.2.2.2.2 "GET" rfl⟩

/-- Claim C10: for every finalized Response with absent content whose status
code S satisfies S ≠ 200 and S < 400, envelope construction leaves the
response unchanged apart from tracing: the envelope has body null, statusCode
equal to the decimal string of S, isBase64Encoded false, the headers are the
response's own headers (plus at most the x-request-id tracing header), and no
content-length or content-type header is added. -/
theorem C10_no_content_non200_passthrough (r : Response) (log : LogCtx)
    (hc : r.content = none) (hne : r.status_code ≠ 200) (hlt : r.status_code < 400) :
    Handler.prepare_response r log =
      (⟨none, toString r.status_code,
        (match log.request_id with
         | some rid => dictSet r.headers "x-request-id" rid
         | none => r.headers), false⟩,
       { log with status_code := some r.status_code })
    ∧ dictGet (Handler.prepare_response r log).1.headers "content-length" =
        dictGet r.headers "content-length"
    ∧ dictGet (Handler.prepare_response r log).1.headers "content-type" =
        dictGet r.headers "content-type" := by
  have h400 : ¬ r.status_code ≥ 400 := by omega
  cases hrid : log.request_id with
  | none =>
    refine ⟨?_, ?_, ?_⟩ <;> simp [Handler.prepare_response, hc, hne, h400, hrid]
  | some rid =>
    refine ⟨?_, ?_, ?_⟩
    · simp [Handler.prepare_response, hc, hne, h400, hrid]
    · simp only [Handler.prepare_response, hc, hne, h400, hrid]
      simp [hne, h400]
      exact dictGet_dictSet_of_ne _ _ _ _ (by decide)
    · simp only [Handler.prepare_response, hc, hne, h400, hrid]
      simp [hne, h400]
      exact dictGet_dictSet_of_ne _ _ _ _ (by decide)

/-- Witness for C10 at a concrete response: status 202, no content, one
pre-existing header, a known request id. -/
theorem C10_no_content_non200_passthrough_witness :
    (Response.mk 202 [("a", "b")] none (some "application/json")).content = none
    ∧ (Response.mk 202 [("a", "b")] none (some "application/json")).status_code ≠ 200
    ∧ (Response.mk 202 [("a", "b")] none (some "application/json")).status_code < 400
    ∧ (Handler.prepare_response (Response.mk 202 [("a", "b")] none (some "application/json"))
          ⟨none, none, some "req-1", none, none, none, none⟩ =
        (⟨none, toString (202 : Int),
          (match (⟨none, none, some "req-1", none, none, none, none⟩ : LogCtx).request_id with
           | some rid => dictSet [("a", "b")] "x-request-id" rid
           | none => [("a", "b")]), false⟩,
         { (⟨none, none, some "req-1", none, none, none, none⟩ : LogCtx) with
             status_code := some 202 })
      ∧ dictGet (Handler.prepare_response
            (Response.mk 202 [("a", "b")] none (some "application/json"))
            ⟨none, none, some "req-1", none, none, none, none⟩).1.headers "content-length" =
          dictGet [("a", "b")] "content-length"
      ∧ dictGet (Handler.prepare_response
            (Response.mk 202 [("a", "b")] none (some "application/json"))
            ⟨none, none, some "req-1", none, none, none, none⟩).1.headers "content-type" =
          dictGet [("a", "b")] "content-type") :=
  ⟨rfl, by decide, by decide,
   C10_no_content_non200_passthrough
     (Response.mk 202 [("a", "b")] none (some "application/json"))
     ⟨none, none, some "req-1", none, none, none, none⟩
     rfl (by decide) (by decide)⟩

end AioLambdaApi
